import Mathlib

/-!
# SlackLiner: verification of the validation/dispatch core

Shallow embedding of the SlackLiner service (Go): the request types of
types.go, the dispatch functions of slack.go
(sendSlackMessageWithResponse, sendSlackMessage, addSlackReaction),
the HTTP handler of http.go (handlePostMessage) and one iteration of
the queue consumer loops of redis.go (processMessages, processReactions).

Modelling conventions:
* JSON values are an abstract syntax tree (`JVal`); JSON numbers are `ℚ`.
  Go decodes JSON numbers into float64 and re-encodes them with
  round-trip-exact shortest formatting, so at the value level the number
  passage is injective; floating-point representation limits are outside
  the model.
* The Go type int is modelled by unbounded `Int`: the program only
  compares TTL values with 0, so 64-bit overflow never matters here.
* A `json.RawMessage` field is modelled as `Option JVal`: `none` is a nil
  raw message (field absent, length 0), `some v` a raw message holding the
  JSON text of `v` (always of positive length, so the Go guard
  `len(msg.Blocks) == 0` is exactly `isNone`).  An explicit JSON null is
  captured by a raw message as the four bytes null, i.e. `some .jnull`.
* A Go `map[string]interface{}` is represented by its canonical form: the
  association list of its entries sorted by key (a Go map value has no
  intrinsic order, so each map corresponds to exactly one such list).
* External collaborators (the Slack client, the Redis publish handle, the
  per-block parser inside the slack library Blocks unmarshaller) are
  oracle functions supplied in a `Collab` structure; the dispatch
  functions return, next to the Go return values, a trace of the outbound
  calls they made, which is the observable the specification talks about.
* Logging is not modelled; log statements have no other effect in the
  source.
-/

namespace SlackLiner

mutual
/-- JSON value AST.  Object members keep their textual order, as the raw
bytes of a JSON document do. -/
inductive JVal where
  | jnull : JVal
  | jbool (b : Bool) : JVal
  | jnum (q : ℚ) : JVal
  | jstr (s : String) : JVal
  | jarr (xs : JArr) : JVal
  | jobj (kvs : JObj) : JVal

/-- List of JSON values (array members). -/
inductive JArr where
  | nil : JArr
  | cons (x : JVal) (xs : JArr) : JArr

/-- List of JSON object members. -/
inductive JObj where
  | nil : JObj
  | cons (k : String) (v : JVal) (kvs : JObj) : JObj
end

/-- Convert an array AST to a Lean list of members. -/
def JArr.toList : JArr → List JVal
  | .nil => []
  | .cons x xs => x :: JArr.toList xs

/-- Build an array AST from a Lean list. -/
def JArr.ofList : List JVal → JArr
  | [] => .nil
  | x :: xs => .cons x (JArr.ofList xs)

/-- Build an object member list from a Lean list of pairs. -/
def JObj.ofList : List (String × JVal) → JObj
  | [] => .nil
  | (k, v) :: rest => .cons k v (JObj.ofList rest)

/-- Convert an object member list to a Lean list of pairs. -/
def JObj.toList : JObj → List (String × JVal)
  | .nil => []
  | .cons k v rest => (k, v) :: JObj.toList rest

/-- Lexicographic comparison of character lists by Unicode scalar value.
UTF-8 byte order coincides with scalar-value order, so this is the byte
order in which Go sorts the keys of a marshalled map. -/
def charsLt : List Char → List Char → Bool
  | _, [] => false
  | [], _ :: _ => true
  | c :: cs, d :: ds =>
      if c.toNat < d.toNat then true
      else if d.toNat < c.toNat then false
      else charsLt cs ds

/-- Byte-order comparison of two keys. -/
def keyLt (a b : String) : Bool :=
  charsLt a.data b.data

/-- Insert a binding into a key-sorted member list, replacing an existing
binding of the same key: the list form of one Go map assignment. -/
def insertSorted (k : String) (v : JVal) : JObj → JObj
  | .nil => .cons k v .nil
  | .cons k' v' rest =>
      if k = k' then .cons k v rest
      else if keyLt k k' then .cons k v (.cons k' v' rest)
      else .cons k' v' (insertSorted k v rest)

mutual
/-- Canonicalize a JSON value the way a passage through the Go decoded
form `interface{}` does: every object becomes a key-sorted,
duplicate-free map (later duplicate members win, as repeated assignment
to a map does), recursively; arrays are canonicalized member-wise. -/
def jsort : JVal → JVal
  | .jnull => .jnull
  | .jbool b => .jbool b
  | .jnum q => .jnum q
  | .jstr s => .jstr s
  | .jarr xs => .jarr (jsortArr xs)
  | .jobj kvs => .jobj (jsortObjAux .nil kvs)
termination_by structural v => v

/-- Member-wise canonicalization of an array. -/
def jsortArr : JArr → JArr
  | .nil => .nil
  | .cons x xs => .cons (jsort x) (jsortArr xs)
termination_by structural xs => xs

/-- Fold object members into a sorted map, later bindings overriding
earlier ones, canonicalizing every value. -/
def jsortObjAux : JObj → JObj → JObj
  | acc, .nil => acc
  | acc, .cons k v rest => jsortObjAux (insertSorted k (jsort v) acc) rest
termination_by structural _ b => b
end

/-- Decode an object member list into a Go map of decoded values, listed
back in canonical (key-sorted) order. -/
def jsortObj (kvs : JObj) : JObj :=
  jsortObjAux .nil kvs

/-! ## Request/response types (types.go) -/

/-- MessageMetadata of types.go: optional metadata attached to a Slack
message.  EventPayload is a Go `map[string]interface{}`; `none` is a nil
map (marshalled as JSON null), `some kvs` a map in canonical key-sorted
form. -/
structure MessageMetadata where
  EventType : String
  EventPayload : Option JObj

/-- SlackMessage of types.go: the post-message payload.  Field tags:
channel; text,omitempty; blocks,omitempty (raw message); thread_ts,omitempty;
metadata,omitempty (pointer); ttl,omitempty. -/
structure SlackMessage where
  Channel : String
  Text : String
  Blocks : Option JVal
  ThreadTS : String
  Metadata : Option MessageMetadata
  TTL : Int

/-- TimeBombMessage of types.go: the deletion notice published to the
TimeBomb channel. -/
structure TimeBombMessage where
  Channel : String
  TS : String
  TTL : Int
deriving DecidableEq, Repr

/-- ReactionMessage of types.go: the reaction payload.

Modelled from the spec: the snapshot of types.go in this repository
lacks the declaration of the Remove field, although slack.go reads
msg.Remove and the tests construct ReactionMessage values with
Remove true and false; the field is therefore modelled from the spec
(remove: boolean, optional, default false) and that usage. -/
structure ReactionMessage where
  Reaction : String
  Channel : String
  TS : String
  Remove : Bool
deriving DecidableEq, Repr

/-- MessageResponse of types.go: the HTTP response body after posting
(the PostResult of the spec). -/
structure MessageResponse where
  Channel : String
  TS : String
deriving DecidableEq, Repr

/-! ## JSON marshalling/unmarshalling of the request/response types

Models of encoding/json Marshal and Unmarshal at the AST level: Marshal
emits struct fields in declaration order, omitting omitempty fields that
hold their zero value; Unmarshal reads members by field tag (for repeated
keys the last member wins), leaves absent fields at their zero value, and
treats a JSON null as leaving the field untouched. -/

/-- Find the value of a key in an object member list; the LAST member
with the key wins, since Unmarshal assigns fields in member order. -/
def objFind : JObj → String → Option JVal
  | .nil, _ => none
  | .cons k v rest, key =>
      match objFind rest key with
      | some r => some r
      | none => if k = key then some v else none

/-- Decode an optional member into a Go string field: absent or null
leaves the zero value. -/
def getString : Option JVal → Except String String
  | none => .ok ""
  | some .jnull => .ok ""
  | some (.jstr s) => .ok s
  | some _ => .error "json: cannot unmarshal value into Go value of type string"

/-- Decode an optional member into a Go int field: absent or null leaves
the zero value; a fractional number is rejected. -/
def getInt : Option JVal → Except String Int
  | none => .ok 0
  | some .jnull => .ok 0
  | some (.jnum q) =>
      if q.den = 1 then .ok q.num
      else .error "json: cannot unmarshal number into Go value of type int"
  | some _ => .error "json: cannot unmarshal value into Go value of type int"

/-- Decode an optional member into a Go bool field: absent or null leaves
the zero value. -/
def getBool : Option JVal → Except String Bool
  | none => .ok false
  | some .jnull => .ok false
  | some (.jbool b) => .ok b
  | some _ => .error "json: cannot unmarshal value into Go value of type bool"

/-- Marshal a TimeBombMessage: channel, ts, ttl (no omitempty). -/
def marshalTimeBombMessage (m : TimeBombMessage) : JVal :=
  .jobj (JObj.ofList
    [("channel", .jstr m.Channel), ("ts", .jstr m.TS), ("ttl", .jnum (m.TTL : ℚ))])

/-- Marshal the event_payload map: a nil map is null, otherwise the
members in sorted key order with recursively marshalled values. -/
def marshalEventPayload : Option JObj → JVal
  | none => .jnull
  | some kvs => .jobj (jsortObj kvs)

/-- Marshal a MessageMetadata: event_type, event_payload (no omitempty). -/
def marshalMessageMetadata (md : MessageMetadata) : JVal :=
  .jobj (JObj.ofList
    [("event_type", .jstr md.EventType),
     ("event_payload", marshalEventPayload md.EventPayload)])

/-- Marshal a SlackMessage: fields in declaration order, omitempty fields
omitted at their zero value. -/
def marshalSlackMessage (m : SlackMessage) : JVal :=
  .jobj (JObj.ofList (
    [("channel", JVal.jstr m.Channel)]
    ++ (if m.Text ≠ "" then [("text", JVal.jstr m.Text)] else [])
    ++ (match m.Blocks with
        | some b => [("blocks", b)]
        | none => [])
    ++ (if m.ThreadTS ≠ "" then [("thread_ts", JVal.jstr m.ThreadTS)] else [])
    ++ (match m.Metadata with
        | some md => [("metadata", marshalMessageMetadata md)]
        | none => [])
    ++ (if m.TTL ≠ 0 then [("ttl", JVal.jnum (m.TTL : ℚ))] else [])))

/-- Marshal a ReactionMessage.  Modelled from the spec: the remove member
is emitted only when true (remove is optional with default false); the
reaction, channel and ts members carry no omitempty. -/
def marshalReactionMessage (r : ReactionMessage) : JVal :=
  .jobj (JObj.ofList (
    [("reaction", JVal.jstr r.Reaction),
     ("channel", JVal.jstr r.Channel),
     ("ts", JVal.jstr r.TS)]
    ++ (if r.Remove then [("remove", JVal.jbool true)] else [])))

/-- Marshal a MessageResponse: channel, ts (no omitempty). -/
def marshalMessageResponse (p : MessageResponse) : JVal :=
  .jobj (JObj.ofList [("channel", .jstr p.Channel), ("ts", .jstr p.TS)])

/-- Decode an optional member into a Go map of decoded values: absent or
null leaves the nil map; an object decodes into the canonical map form;
anything else is rejected. -/
def getEventPayload : Option JVal → Except String (Option JObj)
  | none => .ok none
  | some .jnull => .ok none
  | some (.jobj pkvs) => .ok (some (jsortObj pkvs))
  | some _ => .error "json: cannot unmarshal value into Go value of type map"

/-- Unmarshal a MessageMetadata from a JSON value. -/
def unmarshalMessageMetadata : JVal → Except String MessageMetadata
  | .jnull => .ok ⟨"", none⟩
  | .jobj kvs =>
      match getString (objFind kvs "event_type") with
      | .error e => .error e
      | .ok et =>
          match getEventPayload (objFind kvs "event_payload") with
          | .error e => .error e
          | .ok ep => .ok ⟨et, ep⟩
  | _ => .error "json: cannot unmarshal value into Go value of type MessageMetadata"

/-- Unmarshal a SlackMessage from a JSON value.  The blocks member, a raw
message, captures any value verbatim, including an explicit null. -/
def unmarshalSlackMessage : JVal → Except String SlackMessage
  | .jnull => .ok ⟨"", "", none, "", none, 0⟩
  | .jobj kvs =>
      match getString (objFind kvs "channel") with
      | .error e => .error e
      | .ok channel =>
          match getString (objFind kvs "text") with
          | .error e => .error e
          | .ok text =>
              match getString (objFind kvs "thread_ts") with
              | .error e => .error e
              | .ok threadTS =>
                  match (match objFind kvs "metadata" with
                         | none => Except.ok Option.none
                         | some .jnull => Except.ok Option.none
                         | some v => Except.map Option.some (unmarshalMessageMetadata v)) with
                  | .error e => .error e
                  | .ok metadata =>
                      match getInt (objFind kvs "ttl") with
                      | .error e => .error e
                      | .ok ttl =>
                          .ok ⟨channel, text, objFind kvs "blocks", threadTS, metadata, ttl⟩
  | _ => .error "json: cannot unmarshal value into Go value of type SlackMessage"

/-- Unmarshal a ReactionMessage from a JSON value. -/
def unmarshalReactionMessage : JVal → Except String ReactionMessage
  | .jnull => .ok ⟨"", "", "", false⟩
  | .jobj kvs =>
      match getString (objFind kvs "reaction") with
      | .error e => .error e
      | .ok reaction =>
          match getString (objFind kvs "channel") with
          | .error e => .error e
          | .ok channel =>
              match getString (objFind kvs "ts") with
              | .error e => .error e
              | .ok ts =>
                  match getBool (objFind kvs "remove") with
                  | .error e => .error e
                  | .ok remove => .ok ⟨reaction, channel, ts, remove⟩
  | _ => .error "json: cannot unmarshal value into Go value of type ReactionMessage"

/-- Unmarshal a MessageResponse from a JSON value. -/
def unmarshalMessageResponse : JVal → Except String MessageResponse
  | .jnull => .ok ⟨"", ""⟩
  | .jobj kvs =>
      match getString (objFind kvs "channel") with
      | .error e => .error e
      | .ok channel =>
          match getString (objFind kvs "ts") with
          | .error e => .error e
          | .ok ts => .ok ⟨channel, ts⟩
  | _ => .error "json: cannot unmarshal value into Go value of type MessageResponse"

/-! ## Dispatcher (slack.go) -/

/-- Message options assembled by sendSlackMessageWithResponse, in the
order the Go code appends them. -/
inductive MsgOption where
  | disableLinkUnfurl : MsgOption
  | text (s : String) : MsgOption
  | blocks (bs : List JVal) : MsgOption
  | ts (threadTS : String) : MsgOption
  | metadata (eventType : String) (eventPayload : Option JObj) : MsgOption

/-- Error values sendSlackMessageWithResponse can return, by identity:
the two sentinels of types.go, the error propagated from the blocks
unmarshal, and the error propagated from the Slack PostMessage call.
The HTTP handler compares the returned error against the sentinels. -/
inductive DispatchErr where
  | invalidMessage : DispatchErr
  | invalidTTL : DispatchErr
  | blocksUnmarshal (e : String) : DispatchErr
  | postFailed (e : String) : DispatchErr
deriving DecidableEq, Repr

/-- External collaborators of the dispatcher: the Slack PostMessage call
(returning the platform-assigned channel and timestamp or an error), the
Redis Publish call (returning a success flag; its error is only logged by
the source), and the per-block parser that the slack library Blocks
unmarshaller applies to each member of the blocks array. -/
structure Collab where
  postMessage : String → List MsgOption → Except String (String × String)
  publish : String → JVal → Bool
  parseBlock : JVal → Except String JVal

/-- Trace of the outbound calls one dispatch performed: PostMessage calls
with their channel and options, and Publish attempts with their channel,
payload and outcome. -/
structure DispatchEffects where
  postCalls : List (String × List MsgOption)
  publishes : List (String × JVal × Bool)

/-- Empty trace: no outbound call was made. -/
def noEffects : DispatchEffects := ⟨[], []⟩

/-- Model of the slack library Blocks unmarshalling applied to the raw
blocks bytes: the value must be a JSON array, and each member is parsed
by the per-block parser; the resulting BlockSet is the list of parsed
blocks (nil for an empty array, so the Go guard
blocks.BlockSet != nil && len(blocks.BlockSet) > 0 is exactly a
non-empty result list). -/
def unmarshalBlocks (parseBlock : JVal → Except String JVal) : JVal → Except String (List JVal)
  | .jarr xs => (JArr.toList xs).mapM parseBlock
  | _ => .error "json: cannot unmarshal value into Go value of type slack.Blocks"

/-- Option assembly of sendSlackMessageWithResponse (slack.go lines
136-174 of the current version): link-unfurl suppression always; text if
non-empty; blocks if the raw message is present, parsed first (a parse
failure aborts with the propagated error) and appended only when the
parsed BlockSet is non-empty; thread_ts if non-empty; metadata if
present. -/
def buildMsgOptions (parseBlock : JVal → Except String JVal) (msg : SlackMessage) :
    Except DispatchErr (List MsgOption) :=
  let opts0 := [MsgOption.disableLinkUnfurl]
  let opts1 := if msg.Text ≠ "" then opts0 ++ [MsgOption.text msg.Text] else opts0
  match msg.Blocks with
  | none => .ok (withTail opts1 msg)
  | some bv =>
      match unmarshalBlocks parseBlock bv with
      | .error e => .error (.blocksUnmarshal e)
      | .ok bs =>
          .ok (withTail (if 0 < bs.length then opts1 ++ [MsgOption.blocks bs] else opts1) msg)
where
  /-- Append the thread_ts and metadata options. -/
  withTail (opts : List MsgOption) (msg : SlackMessage) : List MsgOption :=
    let opts3 := if msg.ThreadTS ≠ "" then opts ++ [MsgOption.ts msg.ThreadTS] else opts
    match msg.Metadata with
    | some md => opts3 ++ [MsgOption.metadata md.EventType md.EventPayload]
    | none => opts3

/-- sendSlackMessageWithResponse of slack.go: validation (channel
required; text or blocks required; ttl non-negative), option assembly,
the PostMessage call, and, when ttl > 0 and the post succeeded, one
marshalled TimeBomb publish whose failure is only logged.  Returns the
trace of outbound calls next to the Go return triple (the channel and
timestamp on success, the error otherwise). -/
def sendSlackMessageWithResponse (env : Collab) (msg : SlackMessage)
    (timeBombChannel : String) : DispatchEffects × Except DispatchErr (String × String) :=
  if msg.Channel = "" then (noEffects, .error .invalidMessage)
  else if msg.Text = "" ∧ msg.Blocks.isNone then (noEffects, .error .invalidMessage)
  else if msg.TTL < 0 then (noEffects, .error .invalidTTL)
  else
    match buildMsgOptions env.parseBlock msg with
    | .error e => (noEffects, .error e)
    | .ok opts =>
        match env.postMessage msg.Channel opts with
        | .error e => (⟨[(msg.Channel, opts)], []⟩, .error (.postFailed e))
        | .ok (channelID, timestamp) =>
            if 0 < msg.TTL then
              (⟨[(msg.Channel, opts)],
                [(timeBombChannel, marshalTimeBombMessage ⟨channelID, timestamp, msg.TTL⟩,
                  env.publish timeBombChannel
                    (marshalTimeBombMessage ⟨channelID, timestamp, msg.TTL⟩))]⟩,
               .ok (channelID, timestamp))
            else
              (⟨[(msg.Channel, opts)], []⟩, .ok (channelID, timestamp))

/-- sendSlackMessage of slack.go: the queue-path wrapper that calls
sendSlackMessageWithResponse and discards the returned triple (errors are
already logged there); only the outbound calls remain observable. -/
def sendSlackMessage (env : Collab) (msg : SlackMessage) (timeBombChannel : String) :
    DispatchEffects :=
  (sendSlackMessageWithResponse env msg timeBombChannel).1

/-- ItemRef of the slack library: the (channel, message-timestamp) pair
identifying a previously sent message. -/
structure ItemRef where
  Channel : String
  Timestamp : String
deriving DecidableEq, Repr

/-- Trace of the reaction calls one addSlackReaction performed:
AddReaction and RemoveReaction calls with their reaction name and item
reference.  The remote outcome is only logged by the source, so it does
not appear. -/
structure ReactionEffects where
  addCalls : List (String × ItemRef)
  removeCalls : List (String × ItemRef)
deriving DecidableEq, Repr

/-- addSlackReaction of slack.go: validation (reaction, channel, ts all
required), then one RemoveReaction call when msg.Remove is set, otherwise
one AddReaction call, both on the item reference built from the channel
and timestamp. -/
def addSlackReaction (msg : ReactionMessage) : ReactionEffects :=
  if msg.Reaction = "" ∨ msg.Channel = "" ∨ msg.TS = "" then ⟨[], []⟩
  else if msg.Remove then ⟨[], [(msg.Reaction, ⟨msg.Channel, msg.TS⟩)]⟩
  else ⟨[(msg.Reaction, ⟨msg.Channel, msg.TS⟩)], []⟩

/-! ## HTTP endpoint (http.go) -/

/-- Outcome of decoding the request body of the /message route: either
the body was not valid JSON for a SlackMessage, or the decoded value. -/
inductive RequestBody where
  | malformed (e : String) : RequestBody
  | decoded (msg : SlackMessage) : RequestBody

/-- Body of an HTTP response: plain text written by http.Error (and the
fixed handler messages), or the JSON encoding of the success response. -/
inductive ResponseBody where
  | text (s : String) : ResponseBody
  | json (v : JVal) : ResponseBody

/-- HTTP response: status code and body. -/
structure HttpResponse where
  status : Nat
  body : ResponseBody

/-- Message text of the dispatch errors, as err.Error() returns it: the
sentinel messages come from types.go, the propagated errors carry the
underlying message. -/
def errorMessage : DispatchErr → String
  | .invalidMessage => "invalid message: channel and either text or blocks are required"
  | .invalidTTL => "invalid message: ttl must be non-negative"
  | .blocksUnmarshal e => e
  | .postFailed e => e

/-- handlePostMessage of http.go: 405 for any method other than POST; 400
with a fixed message when the body fails to decode; otherwise dispatch,
then 400 with the error message when the error is one of the two
validation sentinels, 500 with a generic message for any other dispatch
error, and 200 with the marshalled MessageResponse on success.  Returns
the response next to the trace of outbound calls. -/
def handlePostMessage (env : Collab) (method : String) (body : RequestBody)
    (timeBombChannel : String) : HttpResponse × DispatchEffects :=
  if method ≠ "POST" then (⟨405, .text "Method not allowed"⟩, noEffects)
  else
    match body with
    | .malformed _ => (⟨400, .text "Invalid JSON payload"⟩, noEffects)
    | .decoded msg =>
        match sendSlackMessageWithResponse env msg timeBombChannel with
        | (eff, .error e) =>
            if e = .invalidMessage ∨ e = .invalidTTL then (⟨400, .text (errorMessage e)⟩, eff)
            else (⟨500, .text "Failed to send message to Slack"⟩, eff)
        | (eff, .ok (channelID, timestamp)) =>
            (⟨200, .json (marshalMessageResponse ⟨channelID, timestamp⟩)⟩, eff)

/-! ## Queue consumer loops (redis.go) -/

/-- Outcome of one BLPOP call as the loop sees it: redis.Nil on timeout,
a transient error (logged, then a fixed 1s backoff), a result of fewer
than two members (logged), or a popped payload.  A popped payload is
either text that is not valid JSON at all, or a JSON value. -/
inductive PopResult where
  | timeout : PopResult
  | popError (e : String) : PopResult
  | shortResult : PopResult
  | poppedMalformed (e : String) : PopResult
  | popped (v : JVal) : PopResult

/-- Outcome of one loop iteration: the loop observed cancellation and
stopped, or it finished the iteration (with the outbound calls it made)
and is back at the blocking pop. -/
inductive IterOutcome (ε : Type) where
  | stopped : IterOutcome ε
  | looped (eff : ε) : IterOutcome ε
deriving DecidableEq, Repr

/-- One iteration of processMessages of redis.go: the select observes
cancellation first (a ready ctx.Done() case wins over the default case);
otherwise every per-item failure (pop timeout, transient pop error, short
result, JSON parse failure) just continues, and a decoded message is
dispatched through sendSlackMessage. -/
def processMessagesIter (env : Collab) (timeBombChannel : String)
    (cancelled : Bool) (pop : PopResult) : IterOutcome DispatchEffects :=
  if cancelled then .stopped
  else
    match pop with
    | .timeout => .looped noEffects
    | .popError _ => .looped noEffects
    | .shortResult => .looped noEffects
    | .poppedMalformed _ => .looped noEffects
    | .popped v =>
        match unmarshalSlackMessage v with
        | .error _ => .looped noEffects
        | .ok msg => .looped (sendSlackMessage env msg timeBombChannel)

/-- One iteration of processReactions of redis.go: same loop shape, with
the reaction payload decode and addSlackReaction as the handler. -/
def processReactionsIter (cancelled : Bool) (pop : PopResult) : IterOutcome ReactionEffects :=
  if cancelled then .stopped
  else
    match pop with
    | .timeout => .looped ⟨[], []⟩
    | .popError _ => .looped ⟨[], []⟩
    | .shortResult => .looped ⟨[], []⟩
    | .poppedMalformed _ => .looped ⟨[], []⟩
    | .popped v =>
        match unmarshalReactionMessage v with
        | .error _ => .looped ⟨[], []⟩
        | .ok msg => .looped (addSlackReaction msg)

/-- Run the message loop over a finite schedule of iteration inputs
(cancellation flag observed at the boundary, then the pop outcome);
true when the loop reached its terminal state within the schedule. -/
def processMessagesRun (env : Collab) (timeBombChannel : String) :
    List (Bool × PopResult) → Bool
  | [] => false
  | (c, p) :: rest =>
      match processMessagesIter env timeBombChannel c p with
      | .stopped => true
      | .looped _ => processMessagesRun env timeBombChannel rest

/-- Run the reaction loop over a finite schedule of iteration inputs. -/
def processReactionsRun : List (Bool × PopResult) → Bool
  | [] => false
  | (c, p) :: rest =>
      match processReactionsIter c p with
      | .stopped => true
      | .looped _ => processReactionsRun rest

/-! ## Validity and canonicity predicates (spec section 3) -/

/-- Invariant of a PostRequest per the spec data model: channel
non-empty, at least one of text/blocks non-empty, ttl non-negative. -/
def SlackMessageValid (m : SlackMessage) : Prop :=
  m.Channel ≠ "" ∧ (m.Text ≠ "" ∨ m.Blocks.isSome) ∧ 0 ≤ m.TTL

/-- Invariant of a ReactionRequest per the spec data model: reaction,
channel, ts all non-empty. -/
def ReactionMessageValid (r : ReactionMessage) : Prop :=
  r.Reaction ≠ "" ∧ r.Channel ≠ "" ∧ r.TS ≠ ""

/-- The stored event_payload list is the canonical representation of its
Go map (key-sorted with canonical values) — every Go map value has
exactly one such representation, so this is a representation invariant,
not a restriction on the set of Go values. -/
def payloadCanonical : Option JObj → Prop
  | none => True
  | some kvs => jsortObj kvs = kvs

/-- Canonicity of the metadata payload carried by a SlackMessage. -/
def SlackMessageCanonical (m : SlackMessage) : Prop :=
  match m.Metadata with
  | none => True
  | some md => payloadCanonical md.EventPayload

/-! ## Fixture collaborators used by the concrete witnesses -/

/-- Fixture: PostMessage succeeds with a fixed platform-assigned pair
(distinct from any caller channel), publish succeeds, every block
parses. -/
def envOk : Collab :=
  ⟨fun _ _ => .ok ("C0", "100.2"), fun _ _ => true, fun v => .ok v⟩

/-- Fixture: same as envOk, but every deletion-notice publish fails. -/
def envPubFail : Collab :=
  ⟨fun _ _ => .ok ("C0", "100.2"), fun _ _ => false, fun v => .ok v⟩

/-- Fixture PostRequest of claim C10: empty text, and a blocks raw
message whose JSON text is the empty array. -/
def emptyBlocksMsg : SlackMessage :=
  ⟨"#general", "", some (.jarr .nil), "", none, 0⟩

/-! ## Helper lemmas on the queue loops -/

/-- A non-cancelled iteration of the message loop always comes back to
the blocking pop. -/
theorem processMessagesIter_not_cancelled (env : Collab) (tbc : String) (pop : PopResult) :
    ∃ eff, processMessagesIter env tbc false pop = .looped eff := by
  cases pop with
  | timeout => exact ⟨noEffects, rfl⟩
  | popError e => exact ⟨noEffects, rfl⟩
  | shortResult => exact ⟨noEffects, rfl⟩
  | poppedMalformed e => exact ⟨noEffects, rfl⟩
  | popped v =>
      cases h : unmarshalSlackMessage v with
      | error e => exact ⟨noEffects, by simp [processMessagesIter, h]⟩
      | ok msg => exact ⟨sendSlackMessage env msg tbc, by simp [processMessagesIter, h]⟩

/-- A non-cancelled iteration of the reaction loop always comes back to
the blocking pop. -/
theorem processReactionsIter_not_cancelled (pop : PopResult) :
    ∃ eff, processReactionsIter false pop = .looped eff := by
  cases pop with
  | timeout => exact ⟨⟨[], []⟩, rfl⟩
  | popError e => exact ⟨⟨[], []⟩, rfl⟩
  | shortResult => exact ⟨⟨[], []⟩, rfl⟩
  | poppedMalformed e => exact ⟨⟨[], []⟩, rfl⟩
  | popped v =>
      cases h : unmarshalReactionMessage v with
      | error e => exact ⟨⟨[], []⟩, by simp [processReactionsIter, h]⟩
      | ok msg => exact ⟨addSlackReaction msg, by simp [processReactionsIter, h]⟩

/-- The message loop stops within a schedule exactly when some iteration
boundary observed cancellation. -/
theorem processMessagesRun_eq_any (env : Collab) (tbc : String)
    (inputs : List (Bool × PopResult)) :
    processMessagesRun env tbc inputs = inputs.any (fun ip => ip.1) := by
  induction inputs with
  | nil => rfl
  | cons hd tl ih =>
      obtain ⟨c, p⟩ := hd
      cases c
      · obtain ⟨eff, heff⟩ := processMessagesIter_not_cancelled env tbc p
        simp [processMessagesRun, heff, ih]
      · simp [processMessagesRun, processMessagesIter]

/-- The reaction loop stops within a schedule exactly when some iteration
boundary observed cancellation. -/
theorem processReactionsRun_eq_any (inputs : List (Bool × PopResult)) :
    processReactionsRun inputs = inputs.any (fun ip => ip.1) := by
  induction inputs with
  | nil => rfl
  | cons hd tl ih =>
      obtain ⟨c, p⟩ := hd
      cases c
      · obtain ⟨eff, heff⟩ := processReactionsIter_not_cancelled p
        simp [processReactionsRun, heff, ih]
      · simp [processReactionsRun, processReactionsIter]

/-! ## Round-trip helper lemmas -/

/-- Metadata survives a marshal/unmarshal round trip when its payload is
in canonical map form. -/
theorem unmarshalMessageMetadata_roundtrip (md : MessageMetadata)
    (h : payloadCanonical md.EventPayload) :
    unmarshalMessageMetadata (marshalMessageMetadata md) = .ok md := by
  obtain ⟨et, ep⟩ := md
  cases ep with
  | none =>
      simp [marshalMessageMetadata, marshalEventPayload, unmarshalMessageMetadata,
        JObj.ofList, objFind, getString, getEventPayload]
  | some kvs =>
      have hk : jsortObj kvs = kvs := h
      simp [marshalMessageMetadata, marshalEventPayload, unmarshalMessageMetadata,
        JObj.ofList, objFind, getString, getEventPayload, hk]

/-- A SlackMessage survives a marshal/unmarshal round trip when its
metadata payload is in canonical map form. -/
theorem unmarshalSlackMessage_roundtrip (m : SlackMessage)
    (hcanon : SlackMessageCanonical m) :
    unmarshalSlackMessage (marshalSlackMessage m) = .ok m := by
  obtain ⟨ch, tx, bl, th, md, ttl⟩ := m
  cases md with
  | none =>
      by_cases htx : tx = "" <;> rcases bl with _ | bv <;> by_cases hth : th = "" <;>
        by_cases httl : ttl = 0 <;>
        simp [marshalSlackMessage, unmarshalSlackMessage, JObj.ofList, objFind,
          getString, getInt, htx, hth, httl, Rat.den_intCast, Rat.num_intCast]
  | some mdv =>
      obtain ⟨et, ep⟩ := mdv
      cases ep with
      | none =>
          by_cases htx : tx = "" <;> rcases bl with _ | bv <;> by_cases hth : th = "" <;>
            by_cases httl : ttl = 0 <;>
            simp [marshalSlackMessage, unmarshalSlackMessage, JObj.ofList, objFind,
              getString, getInt, htx, hth, httl, Rat.den_intCast, Rat.num_intCast,
              marshalMessageMetadata, marshalEventPayload, unmarshalMessageMetadata,
              getEventPayload, Except.map]
      | some kvs =>
          have hk : jsortObj kvs = kvs := hcanon
          by_cases htx : tx = "" <;> rcases bl with _ | bv <;> by_cases hth : th = "" <;>
            by_cases httl : ttl = 0 <;>
            simp [marshalSlackMessage, unmarshalSlackMessage, JObj.ofList, objFind,
              getString, getInt, htx, hth, httl, Rat.den_intCast, Rat.num_intCast,
              marshalMessageMetadata, marshalEventPayload, unmarshalMessageMetadata,
              getEventPayload, Except.map, hk]

/-- A ReactionMessage survives a marshal/unmarshal round trip. -/
theorem unmarshalReactionMessage_roundtrip (r : ReactionMessage) :
    unmarshalReactionMessage (marshalReactionMessage r) = .ok r := by
  obtain ⟨re, ch, ts, rm⟩ := r
  cases rm <;>
    simp [marshalReactionMessage, unmarshalReactionMessage, JObj.ofList, objFind,
      getString, getBool]

/-- A MessageResponse survives a marshal/unmarshal round trip. -/
theorem unmarshalMessageResponse_roundtrip (p : MessageResponse) :
    unmarshalMessageResponse (marshalMessageResponse p) = .ok p := by
  obtain ⟨ch, ts⟩ := p
  simp [marshalMessageResponse, unmarshalMessageResponse, JObj.ofList, objFind, getString]

/-! ## Claims -/

/-- Claim C1: for every PostRequest with ttl > 0 whose remote post call
succeeds, exactly one deletion notice is published, and its channel and
ts fields are the platform-assigned channel and timestamp returned by the
post call (not the caller-supplied channel); with ttl == 0 (which is also
the decoded form of an absent ttl) no deletion notice is produced even on
successful dispatch. -/
theorem c1_deletion_notice (env : Collab) (msg : SlackMessage) (tbc cid ts : String) :
    (0 < msg.TTL →
      (sendSlackMessageWithResponse env msg tbc).2 = .ok (cid, ts) →
      (sendSlackMessageWithResponse env msg tbc).1.publishes
        = [(tbc, marshalTimeBombMessage ⟨cid, ts, msg.TTL⟩,
            env.publish tbc (marshalTimeBombMessage ⟨cid, ts, msg.TTL⟩))]) ∧
    (msg.TTL = 0 → (sendSlackMessageWithResponse env msg tbc).1.publishes = []) := by
  unfold sendSlackMessageWithResponse
  by_cases hc : msg.Channel = ""
  · rw [if_pos hc]; exact ⟨fun _ h => by simp at h, fun _ => rfl⟩
  · rw [if_neg hc]
    by_cases hbl : msg.Text = "" ∧ msg.Blocks.isNone
    · rw [if_pos hbl]; exact ⟨fun _ h => by simp at h, fun _ => rfl⟩
    · rw [if_neg hbl]
      by_cases hneg : msg.TTL < 0
      · rw [if_pos hneg]; exact ⟨fun _ h => by simp at h, fun _ => rfl⟩
      · rw [if_neg hneg]
        rcases hb : buildMsgOptions env.parseBlock msg with e | opts <;> simp only [hb]
        · exact ⟨fun _ h => by simp at h, fun _ => by simp [noEffects]⟩
        · rcases hp : env.postMessage msg.Channel opts with e | ⟨cid', ts'⟩ <;> simp only [hp]
          · exact ⟨fun _ h => by simp at h, fun _ => by simp [noEffects]⟩
          · constructor
            · intro httl hok
              rw [if_pos httl] at hok ⊢
              simp only [Except.ok.injEq, Prod.mk.injEq] at hok
              obtain ⟨hcid, hts⟩ := hok
              subst hcid; subst hts
              rfl
            · intro httl0
              rw [if_neg (by omega)]

/-- Claim C1 witness: a concrete successful dispatch with ttl 300 from
caller channel "#general" publishes exactly one notice keyed on the
platform pair ("C0", "100.2"), and the ttl 0 variant publishes none. -/
theorem c1_deletion_notice_witness :
    (sendSlackMessageWithResponse envOk ⟨"#general", "hi", none, "", none, 300⟩ "tb").1.publishes
      = [("tb", marshalTimeBombMessage ⟨"C0", "100.2", 300⟩,
          envOk.publish "tb" (marshalTimeBombMessage ⟨"C0", "100.2", 300⟩))] ∧
    (sendSlackMessageWithResponse envOk ⟨"#general", "hi", none, "", none, 0⟩ "tb").1.publishes
      = [] :=
  ⟨(c1_deletion_notice envOk ⟨"#general", "hi", none, "", none, 300⟩ "tb" "C0" "100.2").1
      (by decide) rfl,
   (c1_deletion_notice envOk ⟨"#general", "hi", none, "", none, 0⟩ "tb" "C0" "100.2").2 rfl⟩

/-- Claim C2, counterexample: an empty channel and an empty text with
empty blocks are both reported with THE SAME failure kind, the sentinel
ErrInvalidMessage — not with two different kinds as claimed (the code has
no separate MissingChannel and MissingContent errors; only the TTL
failure has a distinct sentinel). -/
theorem c2_same_kind_counterexample :
    (sendSlackMessageWithResponse envOk ⟨"", "hi", none, "", none, 0⟩ "tb").2
      = .error .invalidMessage ∧
    (sendSlackMessageWithResponse envOk ⟨"#general", "", none, "", none, 0⟩ "tb").2
      = .error .invalidMessage ∧
    (sendSlackMessageWithResponse envOk ⟨"", "hi", none, "", none, 0⟩ "tb").2
      = (sendSlackMessageWithResponse envOk ⟨"#general", "", none, "", none, 0⟩ "tb").2 :=
  ⟨rfl, rfl, rfl⟩

/-- Claim C2 as amended: validation of an empty channel fails, and
validation of empty text together with empty blocks fails, both with the
same failure kind ErrInvalidMessage; the kind that is distinct is the TTL
failure kind ErrInvalidTTL. -/
theorem c2_validation_kinds (env : Collab) (msg : SlackMessage) (tbc : String) :
    (msg.Channel = "" →
      (sendSlackMessageWithResponse env msg tbc).2 = .error .invalidMessage) ∧
    (msg.Text = "" → msg.Blocks = none →
      (sendSlackMessageWithResponse env msg tbc).2 = .error .invalidMessage) ∧
    DispatchErr.invalidMessage ≠ DispatchErr.invalidTTL := by
  refine ⟨?_, ?_, by simp⟩
  · intro hc
    unfold sendSlackMessageWithResponse
    rw [if_pos hc]
  · intro ht hb
    unfold sendSlackMessageWithResponse
    by_cases hc : msg.Channel = ""
    · rw [if_pos hc]
    · rw [if_neg hc, if_pos ⟨ht, by simp [hb]⟩]

/-- Claim C2 witness: the amended statement evaluated on the scenario
with channel "#general" and neither text nor blocks. -/
theorem c2_validation_kinds_witness :
    (sendSlackMessageWithResponse envOk ⟨"#general", "", none, "", none, 0⟩ "tb").2
      = .error .invalidMessage :=
  (c2_validation_kinds envOk ⟨"#general", "", none, "", none, 0⟩ "tb").2.1 rfl rfl

/-- Claim C3, counterexample: a decoded PostRequest whose blocks member
is not an array fails the structured-content parse; the dispatch
propagates that error, and the handler — which only maps the two
validation sentinels to 400 — answers 500, not 400 as claimed for decode
failures. -/
theorem c3_blocks_decode_500_counterexample :
    (sendSlackMessageWithResponse envOk ⟨"#general", "", some (.jstr "nope"), "", none, 0⟩ "tb").2
      = .error (.blocksUnmarshal
          "json: cannot unmarshal value into Go value of type slack.Blocks") ∧
    (handlePostMessage envOk "POST"
        (.decoded ⟨"#general", "", some (.jstr "nope"), "", none, 0⟩) "tb").1.status = 500 ∧
    (handlePostMessage envOk "POST"
        (.decoded ⟨"#general", "", some (.jstr "nope"), "", none, 0⟩) "tb").1.status ≠ 400 :=
  ⟨rfl, rfl, by decide⟩

/-- Claim C3 as amended: the /message route answers 405 for a non-POST
method; 400 with a fixed message for a request-body decode failure; 400
with the failure message for the two validation failures; 500 with a
generic message for every other dispatch error (a remote-call failure,
and also a structured-content blocks parse failure, which propagates like
one); and 200 with the marshalled PostResult on success. -/
theorem c3_http_statuses (env : Collab) (method : String) (body : RequestBody) (tbc : String) :
    (method ≠ "POST" →
      (handlePostMessage env method body tbc).1 = ⟨405, .text "Method not allowed"⟩) ∧
    (∀ e, method = "POST" → body = .malformed e →
      (handlePostMessage env method body tbc).1 = ⟨400, .text "Invalid JSON payload"⟩) ∧
    (∀ msg, method = "POST" → body = .decoded msg →
      (∀ e, (sendSlackMessageWithResponse env msg tbc).2 = .error e →
        (e = .invalidMessage ∨ e = .invalidTTL →
          (handlePostMessage env method body tbc).1 = ⟨400, .text (errorMessage e)⟩) ∧
        (e ≠ .invalidMessage → e ≠ .invalidTTL →
          (handlePostMessage env method body tbc).1
            = ⟨500, .text "Failed to send message to Slack"⟩)) ∧
      (∀ cid ts, (sendSlackMessageWithResponse env msg tbc).2 = .ok (cid, ts) →
        (handlePostMessage env method body tbc).1
          = ⟨200, .json (marshalMessageResponse ⟨cid, ts⟩)⟩)) := by
  refine ⟨?_, ?_, ?_⟩
  · intro hm
    unfold handlePostMessage
    rw [if_pos hm]
  · intro e hm hb
    subst hm; subst hb
    unfold handlePostMessage
    rw [if_neg (by simp)]
  · intro msg hm hb
    subst hm; subst hb
    constructor
    · intro e he
      rcases hs : sendSlackMessageWithResponse env msg tbc with ⟨eff, r⟩
      rw [hs] at he
      simp only at he
      subst he
      constructor
      · intro hsen
        unfold handlePostMessage
        rw [if_neg (by simp)]
        simp only [hs]
        rw [if_pos hsen]
      · intro hn1 hn2
        unfold handlePostMessage
        rw [if_neg (by simp)]
        simp only [hs]
        rw [if_neg (by simp [hn1, hn2])]
    · intro cid ts hok
      rcases hs : sendSlackMessageWithResponse env msg tbc with ⟨eff, r⟩
      rw [hs] at hok
      simp only at hok
      subst hok
      unfold handlePostMessage
      rw [if_neg (by simp)]
      simp only [hs]

/-- Claim C3 witness: the amended statement evaluated on a successful
POST — the response is 200 with the marshalled platform pair. -/
theorem c3_http_statuses_witness :
    (handlePostMessage envOk "POST" (.decoded ⟨"#general", "hi", none, "", none, 0⟩) "tb").1
      = ⟨200, .json (marshalMessageResponse ⟨"C0", "100.2"⟩)⟩ :=
  ((c3_http_statuses envOk "POST" (.decoded ⟨"#general", "hi", none, "", none, 0⟩) "tb").2.2
      ⟨"#general", "hi", none, "", none, 0⟩ rfl rfl).2 "C0" "100.2" rfl

/-- Claim C4: for every PostRequest with ttl > 0 whose post call
succeeds, a failure of the deletion-notice publish does not change the
reported outcome: with a publish collaborator that always fails, the
dispatch still returns the platform-assigned pair with no error, and the
one failed publish attempt is on record. -/
theorem c4_publish_failure_nonfatal
    (post : String → List MsgOption → Except String (String × String))
    (parse : JVal → Except String JVal) (pub : String → JVal → Bool)
    (msg : SlackMessage) (tbc cid ts : String)
    (httl : 0 < msg.TTL)
    (hok : (sendSlackMessageWithResponse ⟨post, pub, parse⟩ msg tbc).2 = .ok (cid, ts)) :
    (sendSlackMessageWithResponse ⟨post, fun _ _ => false, parse⟩ msg tbc).2
      = .ok (cid, ts) ∧
    (sendSlackMessageWithResponse ⟨post, fun _ _ => false, parse⟩ msg tbc).1.publishes
      = [(tbc, marshalTimeBombMessage ⟨cid, ts, msg.TTL⟩, false)] := by
  unfold sendSlackMessageWithResponse at hok ⊢
  by_cases hc : msg.Channel = ""
  · rw [if_pos hc] at hok; simp at hok
  · rw [if_neg hc] at hok ⊢
    by_cases hbl : msg.Text = "" ∧ msg.Blocks.isNone
    · rw [if_pos hbl] at hok; simp at hok
    · rw [if_neg hbl] at hok ⊢
      by_cases hneg : msg.TTL < 0
      · rw [if_pos hneg] at hok; simp at hok
      · rw [if_neg hneg] at hok ⊢
        rcases hb : buildMsgOptions parse msg with e | opts <;>
          simp only [hb] at hok ⊢
        · simp at hok
        · rcases hp : post msg.Channel opts with e | ⟨cid', ts'⟩ <;>
            simp only [hp] at hok ⊢
          · simp at hok
          · rw [if_pos httl] at hok ⊢
            simp only [Except.ok.injEq, Prod.mk.injEq] at hok
            obtain ⟨hcid, hts⟩ := hok
            subst hcid; subst hts
            exact ⟨rfl, rfl⟩

/-- Claim C4 witness: the concrete dispatch of C1 under the always-fail
publish collaborator still reports the platform pair with no error,
while its single publish attempt failed. -/
theorem c4_publish_failure_nonfatal_witness :
    (sendSlackMessageWithResponse envPubFail ⟨"#general", "hi", none, "", none, 300⟩ "tb").2
      = .ok ("C0", "100.2") ∧
    (sendSlackMessageWithResponse envPubFail ⟨"#general", "hi", none, "", none, 300⟩ "tb").1.publishes
      = [("tb", marshalTimeBombMessage ⟨"C0", "100.2", 300⟩, false)] :=
  c4_publish_failure_nonfatal (fun _ _ => .ok ("C0", "100.2")) (fun v => .ok v)
    (fun _ _ => true) ⟨"#general", "hi", none, "", none, 300⟩ "tb" "C0" "100.2"
    (by decide) rfl

/-- Claim C5: for every valid ReactionRequest, remove true invokes the
remote reaction-remove call and never add; remove false invokes add and
never remove; the call carries the (channel, ts) item reference and the
reaction identifier, and exactly one remote call is made. -/
theorem c5_reaction_dispatch (msg : ReactionMessage) (hv : ReactionMessageValid msg) :
    (msg.Remove = true →
      addSlackReaction msg = ⟨[], [(msg.Reaction, ⟨msg.Channel, msg.TS⟩)]⟩) ∧
    (msg.Remove = false →
      addSlackReaction msg = ⟨[(msg.Reaction, ⟨msg.Channel, msg.TS⟩)], []⟩) ∧
    (addSlackReaction msg).addCalls.length + (addSlackReaction msg).removeCalls.length = 1 := by
  obtain ⟨h1, h2, h3⟩ := hv
  unfold addSlackReaction
  rw [if_neg (by simp [h1, h2, h3])]
  cases hr : msg.Remove <;> simp

/-- Claim C5 witness: the remove-true scenario of the spec — reaction
"thumbsup" on item (C1, 1.1) triggers exactly the remove call. -/
theorem c5_reaction_dispatch_witness :
    addSlackReaction ⟨"thumbsup", "C1", "1.1", true⟩
      = ⟨[], [("thumbsup", ⟨"C1", "1.1"⟩)]⟩ :=
  (c5_reaction_dispatch ⟨"thumbsup", "C1", "1.1", true⟩
      ⟨by decide, by decide, by decide⟩).1 rfl

/-- Claim C6: for every PostRequest failing validation (empty channel, or
empty text and empty blocks, or ttl < 0) no remote call is attempted and
no deletion notice is published, and the validation failure is the
reported outcome; for every ReactionRequest with an empty required field
no remote call is made. -/
theorem c6_validation_before_any_call (env : Collab) (msg : SlackMessage)
    (tbc : String) (rmsg : ReactionMessage) :
    ((msg.Channel = "" ∨ (msg.Text = "" ∧ msg.Blocks = none) ∨ msg.TTL < 0) →
      (sendSlackMessageWithResponse env msg tbc).1 = noEffects ∧
      ((sendSlackMessageWithResponse env msg tbc).2 = .error .invalidMessage ∨
       (sendSlackMessageWithResponse env msg tbc).2 = .error .invalidTTL)) ∧
    ((rmsg.Reaction = "" ∨ rmsg.Channel = "" ∨ rmsg.TS = "") →
      addSlackReaction rmsg = ⟨[], []⟩) := by
  constructor
  · intro h
    unfold sendSlackMessageWithResponse
    by_cases hc : msg.Channel = ""
    · rw [if_pos hc]; exact ⟨rfl, Or.inl rfl⟩
    · rw [if_neg hc]
      by_cases hb : msg.Text = "" ∧ msg.Blocks.isNone
      · rw [if_pos hb]; exact ⟨rfl, Or.inl rfl⟩
      · rw [if_neg hb]
        have httl : msg.TTL < 0 := by
          rcases h with h | h | h
          · exact absurd h hc
          · exact absurd ⟨h.1, by simp [h.2]⟩ hb
          · exact h
        rw [if_pos httl]
        exact ⟨rfl, Or.inr rfl⟩
  · intro h
    unfold addSlackReaction
    rw [if_pos h]

/-- Claim C6 witness: the spec scenario with only a channel — validation
fails, no outbound call is traced. -/
theorem c6_validation_before_any_call_witness :
    (sendSlackMessageWithResponse envOk ⟨"#general", "", none, "", none, 0⟩ "tb").1 = noEffects ∧
    ((sendSlackMessageWithResponse envOk ⟨"#general", "", none, "", none, 0⟩ "tb").2
        = .error .invalidMessage ∨
     (sendSlackMessageWithResponse envOk ⟨"#general", "", none, "", none, 0⟩ "tb").2
        = .error .invalidTTL) :=
  (c6_validation_before_any_call envOk ⟨"#general", "", none, "", none, 0⟩ "tb"
      ⟨"", "", "", false⟩).1 (Or.inr (Or.inl ⟨rfl, rfl⟩))

/-- Claim C7: no per-item outcome terminates a consumer loop — every
non-cancelled iteration of either loop comes back to the waiting state —
and a loop reaches its terminal stopped state exactly when the
cancellation signal is observed at an iteration boundary (over any finite
schedule of iteration inputs). -/
theorem c7_loop_progress (env : Collab) (tbc : String) (pop : PopResult)
    (inputs rinputs : List (Bool × PopResult)) :
    processMessagesIter env tbc false pop ≠ .stopped ∧
    processMessagesIter env tbc true pop = .stopped ∧
    processReactionsIter false pop ≠ .stopped ∧
    processReactionsIter true pop = .stopped ∧
    processMessagesRun env tbc inputs = inputs.any (fun ip => ip.1) ∧
    processReactionsRun rinputs = rinputs.any (fun ip => ip.1) := by
  obtain ⟨e1, h1⟩ := processMessagesIter_not_cancelled env tbc pop
  obtain ⟨e2, h2⟩ := processReactionsIter_not_cancelled pop
  exact ⟨by simp [h1], rfl, by simp [h2], rfl,
    processMessagesRun_eq_any env tbc inputs, processReactionsRun_eq_any rinputs⟩

/-- Claim C9: the queue-path dispatch sendSlackMessage is the HTTP-path
dispatch sendSlackMessageWithResponse with the returned triple discarded:
its outbound-call trace is identical, and the message loop dispatches a
decoded item through exactly that shared semantics. -/
theorem c9_shared_dispatch_semantics (env : Collab) (msg : SlackMessage)
    (tbc : String) (v : JVal) :
    sendSlackMessage env msg tbc = (sendSlackMessageWithResponse env msg tbc).1 ∧
    (unmarshalSlackMessage v = .ok msg →
      processMessagesIter env tbc false (.popped v)
        = .looped (sendSlackMessageWithResponse env msg tbc).1) := by
  refine ⟨rfl, ?_⟩
  intro h
  simp [processMessagesIter, h, sendSlackMessage]

/-- Claim C9 witness: a concrete queue item decodes and its iteration
dispatches with the same trace the HTTP path produces. -/
theorem c9_shared_dispatch_semantics_witness :
    processMessagesIter envOk "tb" false
        (.popped (.jobj (JObj.ofList [("channel", .jstr "#g"), ("text", .jstr "hi")])))
      = .looped (sendSlackMessageWithResponse envOk ⟨"#g", "hi", none, "", none, 0⟩ "tb").1 :=
  (c9_shared_dispatch_semantics envOk ⟨"#g", "hi", none, "", none, 0⟩ "tb"
      (.jobj (JObj.ofList [("channel", .jstr "#g"), ("text", .jstr "hi")]))).2 rfl

/-- Claim C10: for the PostRequest with empty text whose blocks raw JSON
is the empty array, content validation succeeds (the raw bytes are
non-empty, so no ErrInvalidMessage is reported) and the remote post call
is invoked carrying neither a text option nor any block content — only
the always-present link-unfurl suppression. -/
theorem c10_empty_blocks_array (env : Collab) (tbc : String) :
    (sendSlackMessageWithResponse env emptyBlocksMsg tbc).1.postCalls
        = [("#general", [MsgOption.disableLinkUnfurl])] ∧
    (sendSlackMessageWithResponse env emptyBlocksMsg tbc).2 ≠ .error .invalidMessage ∧
    (sendSlackMessageWithResponse env emptyBlocksMsg tbc).2 ≠ .error .invalidTTL := by
  have hopts : buildMsgOptions env.parseBlock emptyBlocksMsg
      = .ok [MsgOption.disableLinkUnfurl] := rfl
  unfold sendSlackMessageWithResponse
  rw [if_neg (by simp [emptyBlocksMsg]), if_neg (by simp [emptyBlocksMsg]),
    if_neg (by simp [emptyBlocksMsg])]
  simp only [hopts]
  rcases hp : env.postMessage emptyBlocksMsg.Channel [MsgOption.disableLinkUnfurl]
    with e | ⟨cid, ts⟩ <;> simp only [hp]
  · exact ⟨by simp [emptyBlocksMsg], by simp, by simp⟩
  · rw [if_neg (by simp [emptyBlocksMsg])]
    exact ⟨by simp [emptyBlocksMsg], by simp, by simp⟩

/-- Claim C8: every valid PostRequest, ReactionRequest and PostResult —
with the metadata payload an arbitrary valid map of nested string,
number and boolean values, stated here through its canonical (key-sorted)
representation, which is unique per Go map value — serializes to JSON and
deserializes back to a field-for-field equal value. -/
theorem c8_json_roundtrip :
    (∀ m : SlackMessage, SlackMessageValid m → SlackMessageCanonical m →
        unmarshalSlackMessage (marshalSlackMessage m) = .ok m) ∧
    (∀ r : ReactionMessage, ReactionMessageValid r →
        unmarshalReactionMessage (marshalReactionMessage r) = .ok r) ∧
    (∀ p : MessageResponse, unmarshalMessageResponse (marshalMessageResponse p) = .ok p) :=
  ⟨fun m _ hcanon => unmarshalSlackMessage_roundtrip m hcanon,
   fun r _ => unmarshalReactionMessage_roundtrip r,
   fun p => unmarshalMessageResponse_roundtrip p⟩

/-- Claim C8 witness: concrete round trips — a message with blocks,
thread, ttl and a nested metadata payload holding string, number and
boolean values; a remove-reaction; and a response. -/
theorem c8_json_roundtrip_witness :
    unmarshalSlackMessage (marshalSlackMessage
      ⟨"#general", "Order placed",
        some (.jarr (.cons (.jobj (JObj.ofList [("type", .jstr "section")])) .nil)), "1.2",
        some ⟨"order_created",
          some (JObj.ofList
            [("amount", .jnum (9999/100)), ("express", .jbool true),
             ("items", .jnum 3),
             ("meta", .jobj (JObj.ofList [("a", .jnum 1), ("b", .jstr "x")]))])⟩, 300⟩)
      = .ok ⟨"#general", "Order placed",
        some (.jarr (.cons (.jobj (JObj.ofList [("type", .jstr "section")])) .nil)), "1.2",
        some ⟨"order_created",
          some (JObj.ofList
            [("amount", .jnum (9999/100)), ("express", .jbool true),
             ("items", .jnum 3),
             ("meta", .jobj (JObj.ofList [("a", .jnum 1), ("b", .jstr "x")]))])⟩, 300⟩ ∧
    unmarshalReactionMessage (marshalReactionMessage ⟨"thumbsup", "C1", "1.1", true⟩)
      = .ok ⟨"thumbsup", "C1", "1.1", true⟩ ∧
    unmarshalMessageResponse (marshalMessageResponse ⟨"C0", "100.2"⟩)
      = .ok ⟨"C0", "100.2"⟩ :=
  ⟨c8_json_roundtrip.1 _ ⟨by decide, Or.inl (by decide), by decide⟩ rfl,
   c8_json_roundtrip.2.1 _ ⟨by decide, by decide, by decide⟩,
   c8_json_roundtrip.2.2 _⟩

end SlackLiner
